import Mathlib

/-!
Shallow embedding of `rstcheck.py` (version 0.2): a tool that extracts
code blocks from ReStructuredText documents and syntax-checks each one
with an external, language-specific checker.

Modelling choices:
* A parsed document is the list of its nodes in visitation (document)
  order; a literal block has no relevant children, so a flat list
  suffices (the `SkipNode` raised at the end of `visit_literal_block`
  prevents descending into the block).
* The external world (temporary-file creation, subprocess launch, the
  docutils parser, whether stderr is a tty) is an explicit `Env` record;
  `Except.error` models a raised OSError / IOError / SystemMessage.
* Lines printed to stderr are collected in a list, one entry per
  `print` / `inform` call.
* A Python exception that the source does not catch is modelled by the
  `exn` field of the result carrying `some message`; the callers
  propagate it exactly where the Python exception would unwind.
-/

/-- ANSI escape for green, `GREEN` in the source. -/
def GREEN : String := "\x1b[32m"

/-- ANSI escape for red, `RED` in the source. -/
def RED : String := "\x1b[31m"

/-- `inform(text, color)`: the text as written to stderr — wrapped in
color escapes exactly when stderr is a tty. -/
def inform (isatty : Bool) (text color : String) : String :=
  if isatty then color ++ text ++ "\x1b[0m" else text

/-- A docutils node as far as `rstcheck` reads it: its class list, the
optional `language` attribute (`none` models an absent attribute, read
via `node.get` with default `None`), the raw source text, and the
optional source line (`none` models Python `None`). -/
structure Node where
  classes : List String
  language : Option String
  rawsource : String
  line : Option Nat
  deriving Repr, DecidableEq

/-- `node_has_class(node, classes)`: true when one of the class names
occurs in the node's class list.  The Python scalar-to-list wrapping is
reflected by callers passing a singleton list. -/
def node_has_class (node : Node) (classes : List String) : Bool :=
  classes.any (fun cname => node.classes.contains cname)

/-- `CodeBlockDirective.run`: builds the literal-block node for a
`code-block` / `sourcecode` directive.  A missing first argument
(`IndexError`) yields the empty-string language; the node's `line`
attribute is not set by `run` (Python `None`). -/
def CodeBlockDirective.run (arguments : List String) (content : List String) : List Node :=
  let language := match arguments with
    | [] => ""
    | a :: _ => a
  let code := String.intercalate "\n" content
  [{ classes := ["code-block"], language := some language, rawsource := code, line := none }]

/-- `'{}'.format(x)` for the optional language value: an absent
attribute prints as Python `None`. -/
def pyStrOpt (language : Option String) : String :=
  match language with
  | none => "None"
  | some s => s

/-- `'{}'.format(x)` for the node's optional line number. -/
def pyStrLine (line : Option Nat) : String :=
  match line with
  | none => "None"
  | some n => toString n

/-- Python `str.strip()`: drop whitespace from both ends. -/
def pyStrip (s : String) : String :=
  String.mk (((s.data.dropWhile Char.isWhitespace).reverse.dropWhile Char.isWhitespace).reverse)

/-- The external world: temporary-file materialization (returns the
temporary file's name), synchronous process launch (returns the exit
status and the decoded stdout and stderr), the docutils parser keyed by
filename and the strict-rst flag, and the stderr tty test.  `Except.error`
carries the message of the raised Python exception. -/
structure Env where
  materialize : String → String → Except String String
  runProcess : List String → Except String (Int × String × String)
  parseFile : String → Bool → Except Unit (List Node)
  isatty : Bool

/-- The environment never raises from materialization or process
launch: every checker invocation can actually run. -/
def Env.total (env : Env) : Prop :=
  (∀ extension text, ∃ name, env.materialize extension text = Except.ok name) ∧
  (∀ argv, ∃ r, env.runProcess argv = Except.ok r)

/-- The inline `dict.get(language)` of `visit_literal_block`: maps a
language tag to its file extension and checker command, with `-Werror`
appended to the C and C++ commands when `--strict-warnings` is set.
Lookup of `none` (absent attribute) or any tag outside the four keys
yields `none`. -/
def languageRegistry (strict_warnings : Bool) (language : Option String) :
    Option (String × List String) :=
  let error_flag : List String := if strict_warnings then ["-Werror"] else []
  if language = some "bash" then
    some (".bash", ["bash", "-n"])
  else if language = some "c" then
    some (".c", ["gcc", "-fsyntax-only", "-O3", "-std=c99",
                 "-pedantic", "-Wall", "-Wextra"] ++ error_flag)
  else if language = some "cpp" then
    some (".cpp", ["g++", "-std=c++0x", "-pedantic", "-fsyntax-only",
                   "-O3", "-Wall", "-Wextra"] ++ error_flag)
  else if language = some "python" then
    some (".py", ["python", "-m", "compileall", "-q"])
  else
    none

/-- Result of visiting one node (or walking a document): the stderr
lines emitted, the booleans appended to `self.summary`, and the message
of an uncaught Python exception when one unwound out of the visit. -/
structure VisitOut where
  stderr_lines : List String
  summary : List Bool
  exn : Option String
  deriving Repr, DecidableEq

/-- `CheckTranslator.visit_literal_block`.  Faithful to the source
order: nodes without the `code-block` class return immediately; a
recognized language materializes the snippet, prints the raw source and
a green `Okay`, launches the checker, and appends `True` on exit status
zero or prints the red diagnostic line and appends `False` otherwise; an
unrecognized language prints the unknown-language line and appends
`False` only under `--strict-warnings`.  An OSError from materialization
or launch is not caught and unwinds (`exn`). -/
def visit_literal_block (env : Env) (strict_warnings : Bool) (filename : String)
    (node : Node) : VisitOut :=
  if node_has_class node ["code-block"] then
    let language := node.language
    match languageRegistry strict_warnings language with
    | some (extension, arguments) =>
      match env.materialize extension node.rawsource with
      | Except.error e => { stderr_lines := [], summary := [], exn := some e }
      | Except.ok temporary_file =>
        let printed := [node.rawsource, inform env.isatty "Okay" GREEN]
        match env.runProcess (arguments ++ [temporary_file]) with
        | Except.error e => { stderr_lines := printed, summary := [], exn := some e }
        | Except.ok (returncode, stdout_data, stderr_data) =>
          let output := pyStrip (stdout_data ++ "\n" ++ stderr_data)
          if returncode = 0 then
            { stderr_lines := printed, summary := [true], exn := none }
          else
            { stderr_lines := printed ++
                [inform env.isatty
                  (filename ++ ":" ++ pyStrLine node.line ++ ": " ++ output) RED],
              summary := [false], exn := none }
    | none =>
      { stderr_lines := [inform env.isatty ("Unknown language: " ++ pyStrOpt language) RED],
        summary := if strict_warnings then [false] else [],
        exn := none }
  else
    { stderr_lines := [], summary := [], exn := none }

/-- `document.walkabout(visitor)` restricted to what the translator
observes: nodes are visited in document order, each visit's stderr lines
and summary entries are accumulated, and an uncaught exception stops the
traversal at the node that raised it. -/
def walkDocument (env : Env) (strict_warnings : Bool) (filename : String) :
    List Node → VisitOut
  | [] => { stderr_lines := [], summary := [], exn := none }
  | node :: rest =>
    let r := visit_literal_block env strict_warnings filename node
    match r.exn with
    | some e => { stderr_lines := r.stderr_lines, summary := r.summary, exn := some e }
    | none =>
      let w := walkDocument env strict_warnings filename rest
      { stderr_lines := r.stderr_lines ++ w.stderr_lines,
        summary := r.summary ++ w.summary, exn := w.exn }

/-- The dynamically typed return value of `check`: Python `False` on a
caught `SystemMessage`, otherwise the writer's summary list. -/
inductive PyCheckReturn where
  | pyFalse : PyCheckReturn
  | pyList : List Bool → PyCheckReturn
  deriving Repr, DecidableEq

/-- What one call of `check(filename, ...)` produces: its stderr lines
and either its Python return value or the message of an exception that
unwound out of `check` uncaught (only `utils.SystemMessage` is caught
there). -/
structure CheckOut where
  stderr_lines : List String
  result : Except String PyCheckReturn
  deriving Repr

/-- `check(filename, strict_rst, strict_warnings)`: parse the file (the
`halt_level = 1` override is the `strict_rst` flag handed to the parser
collaborator); a fatal `SystemMessage` returns Python `False`; otherwise
the document is walked and the summary returned. -/
def check (env : Env) (filename : String) (strict_rst strict_warnings : Bool) : CheckOut :=
  match env.parseFile filename strict_rst with
  | Except.error _ => { stderr_lines := [], result := Except.ok PyCheckReturn.pyFalse }
  | Except.ok document =>
    let w := walkDocument env strict_warnings filename document
    match w.exn with
    | some e => { stderr_lines := w.stderr_lines, result := Except.error e }
    | none =>
      { stderr_lines := w.stderr_lines,
        result := Except.ok (PyCheckReturn.pyList w.summary) }

/-- `len([1 for value in summary if not value])`. -/
def failCount (summary : List Bool) : Nat :=
  (summary.filter (fun value => !value)).length

/-- The observable end of a run: a normal exit with its status and the
full stderr transcript, or a crash from an uncaught exception with the
stderr emitted up to that point. -/
inductive MainOut where
  | exit : Nat → List String → MainOut
  | crash : String → List String → MainOut
  deriving Repr, DecidableEq

/-- The `for filename in args.files` loop of `main` followed by the
summary line and return.  `summary += check(...)` raises `TypeError`
when `check` returned Python `False` (a bool is not iterable), crashing
the run there; an exception unwinding out of `check` also crashes the
run. -/
def mainLoop (env : Env) (strict_rst strict_warnings : Bool) :
    List String → List String → List Bool → MainOut
  | [], errAcc, summary =>
    let failures := failCount summary
    MainOut.exit (if failures = 0 then 0 else 1)
      (errAcc ++ [inform env.isatty (toString failures ++ " failure(s)")
        (if failures = 0 then GREEN else RED)])
  | filename :: rest, errAcc, summary =>
    let c := check env filename strict_rst strict_warnings
    match c.result with
    | Except.error e => MainOut.crash e (errAcc ++ c.stderr_lines)
    | Except.ok PyCheckReturn.pyFalse =>
      MainOut.crash "TypeError: bool object is not iterable" (errAcc ++ c.stderr_lines)
    | Except.ok (PyCheckReturn.pyList l) =>
      mainLoop env strict_rst strict_warnings rest (errAcc ++ c.stderr_lines) (summary ++ l)

/-- `main()` for a given argument list. -/
def pyMain (env : Env) (strict_rst strict_warnings : Bool) (files : List String) : MainOut :=
  mainLoop env strict_rst strict_warnings files [] []

/-- Number of nodes of a document carrying the `code-block` class. -/
def codeBlockCount (doc : List Node) : Nat :=
  doc.countP (fun n => node_has_class n ["code-block"])

/-- Number of `code-block` nodes whose language the registry knows. -/
def countRecognized (strict_warnings : Bool) (doc : List Node) : Nat :=
  doc.countP (fun n =>
    node_has_class n ["code-block"] && (languageRegistry strict_warnings n.language).isSome)

/-- Number of `code-block` nodes whose language the registry rejects. -/
def countUnknown (strict_warnings : Bool) (doc : List Node) : Nat :=
  doc.countP (fun n =>
    node_has_class n ["code-block"] && !(languageRegistry strict_warnings n.language).isSome)

/-- The summary list a successful `check` of one file contributes to
`main`'s accumulator (empty for the other return shapes). -/
def fileSummary (env : Env) (strict_rst strict_warnings : Bool) (f : String) : List Bool :=
  match (check env f strict_rst strict_warnings).result with
  | Except.ok (PyCheckReturn.pyList l) => l
  | _ => []

/-- The stderr lines one `check` call emits. -/
def fileStderr (env : Env) (strict_rst strict_warnings : Bool) (f : String) : List String :=
  (check env f strict_rst strict_warnings).stderr_lines

/-- All summary entries recorded across the files of a run. -/
def runSummary (env : Env) (strict_rst strict_warnings : Bool) (files : List String) : List Bool :=
  (files.map (fileSummary env strict_rst strict_warnings)).flatten

/-- All stderr lines the per-file checks of a run emit. -/
def runStderr (env : Env) (strict_rst strict_warnings : Bool) (files : List String) : List String :=
  (files.map (fileStderr env strict_rst strict_warnings)).flatten

/-! ## Concrete environments and nodes used as test inputs -/

/-- An environment where every materialization and launch succeeds, the
checker always exits 0 with empty output, every file parses to the empty
document, and stderr is not a tty. -/
def envOk : Env where
  materialize := fun _ _ => Except.ok "/tmp/snippet"
  runProcess := fun _ => Except.ok (0, "", "")
  parseFile := fun _ _ => Except.ok []
  isatty := false

/-- An environment where the checker binary cannot be launched: every
`Popen` raises OSError. -/
def envLaunchFail : Env where
  materialize := fun _ _ => Except.ok "/tmp/snippet"
  runProcess := fun _ => Except.error "OSError: No such file or directory"
  parseFile := fun _ _ => Except.ok []
  isatty := false

/-- An environment where the checker runs but exits 1 printing `boom`. -/
def envFailRun : Env where
  materialize := fun _ _ => Except.ok "/tmp/snippet"
  runProcess := fun _ => Except.ok (1, "boom", "")
  parseFile := fun _ _ => Except.ok []
  isatty := false

/-- An environment where parsing `bad.rst` raises a fatal
`SystemMessage` and every other file parses to the empty document. -/
def envParseError : Env where
  materialize := fun _ _ => Except.ok "/tmp/snippet"
  runProcess := fun _ => Except.ok (0, "", "")
  parseFile := fun f _ => if f = "bad.rst" then Except.error () else Except.ok []
  isatty := false

/-- An environment where the snippet cannot be materialized: every
`NamedTemporaryFile` raises IOError. -/
def envMatFail : Env where
  materialize := fun _ _ => Except.error "IOError: No space left on device"
  runProcess := fun _ => Except.ok (0, "", "")
  parseFile := fun _ _ => Except.ok []
  isatty := false

/-- A `code-block` literal block tagged `python` at line 3. -/
def pyNode : Node where
  classes := ["code-block"]
  language := some "python"
  rawsource := "print(1)"
  line := some 3

/-- A `code-block` literal block tagged `ruby`, a language outside the
registry. -/
def rubyNode : Node where
  classes := ["code-block"]
  language := some "ruby"
  rawsource := "puts 1"
  line := some 5

/-- A `code-block` literal block whose `language` attribute is absent
entirely. -/
def noLangNode : Node where
  classes := ["code-block"]
  language := none
  rawsource := "x = 1"
  line := some 7

/-! ## Theorems -/

/-- C7: the registry recognizes exactly the four tags `bash`, `c`,
`cpp`, `python` (exact match, so the empty tag and every other tag
return nothing), and strict-warnings appends `-Werror` to the C and C++
command templates only, leaving bash and python unchanged. -/
theorem registry_domain_and_strict_flag (strict_warnings : Bool) (lang : String) :
    ((languageRegistry strict_warnings (some lang)).isSome ↔
      (lang = "bash" ∨ lang = "c" ∨ lang = "cpp" ∨ lang = "python")) ∧
    languageRegistry true (some "c") =
      (languageRegistry false (some "c")).map (fun p => (p.1, p.2 ++ ["-Werror"])) ∧
    languageRegistry true (some "cpp") =
      (languageRegistry false (some "cpp")).map (fun p => (p.1, p.2 ++ ["-Werror"])) ∧
    languageRegistry true (some "bash") = languageRegistry false (some "bash") ∧
    languageRegistry true (some "python") = languageRegistry false (some "python") := by
  refine ⟨?_, by rfl, by rfl, by rfl, by rfl⟩
  constructor
  · intro h
    by_contra hno
    push_neg at hno
    obtain ⟨h1, h2, h3, h4⟩ := hno
    simp [languageRegistry, h1, h2, h3, h4] at h
  · rintro (h | h | h | h) <;> subst h <;> simp [languageRegistry]

/-- C8: a `code-block` directive written with no language argument gets
the empty-string tag; that tag never matches the registry, the block is
always reported as unknown-language on stderr (never silently skipped),
and it contributes a failure to the summary exactly when strict-warnings
is enabled. -/
theorem noarg_directive_always_reported (env : Env) (sw : Bool) (fn : String)
    (content : List String) :
    (CodeBlockDirective.run [] content).map (visit_literal_block env sw fn) =
      [{ stderr_lines := [inform env.isatty "Unknown language: " RED],
         summary := if sw then [false] else [], exn := none }] ∧
    languageRegistry sw (some "") = none := by
  constructor
  · simp [CodeBlockDirective.run, visit_literal_block, node_has_class,
      languageRegistry, pyStrOpt]
  · simp [languageRegistry]

/-- C10: a literal block carrying the `code-block` class but lacking a
`language` attribute entirely is handled totally: the lookup finds
nothing, the block takes the unknown-language path (reported as
`Unknown language: None`), and no exception is raised. -/
theorem missing_language_attribute_total (env : Env) (sw : Bool) (fn : String) (node : Node)
    (hclass : node_has_class node ["code-block"] = true)
    (hlang : node.language = none) :
    visit_literal_block env sw fn node =
      { stderr_lines := [inform env.isatty "Unknown language: None" RED],
        summary := if sw then [false] else [], exn := none } := by
  simp [visit_literal_block, hclass, hlang, languageRegistry, pyStrOpt]

/-- Witness for C10 at a concrete node with no `language` attribute. -/
theorem missing_language_attribute_total_witness :
    visit_literal_block envOk false "f.rst" noLangNode =
      { stderr_lines := ["Unknown language: None"], summary := [], exn := none } := by
  have h := missing_language_attribute_total envOk false "f.rst" noLangNode (by decide) rfl
  simpa [inform, envOk] using h

/-- C6: for a `code-block` node whose language the registry knows, the
snippet is materialized, the checker command is launched with the
temporary file's path appended, and the recorded outcome is `True`
(Passed) exactly when the exit status is zero, `False` (Failed) with the
trimmed concatenation of stdout and stderr and the node's line number in
the diagnostic exactly when it is nonzero. -/
theorem recognized_block_passed_iff_exit_zero (env : Env) (sw : Bool) (fn : String)
    (node : Node) (extension : String) (arguments : List String) (tmp : String)
    (rc : Int) (out err : String)
    (hclass : node_has_class node ["code-block"] = true)
    (hreg : languageRegistry sw node.language = some (extension, arguments))
    (hmat : env.materialize extension node.rawsource = Except.ok tmp)
    (hrun : env.runProcess (arguments ++ [tmp]) = Except.ok (rc, out, err)) :
    visit_literal_block env sw fn node =
      if rc = 0 then
        { stderr_lines := [node.rawsource, inform env.isatty "Okay" GREEN],
          summary := [true], exn := none }
      else
        { stderr_lines := [node.rawsource, inform env.isatty "Okay" GREEN,
            inform env.isatty
              (fn ++ ":" ++ pyStrLine node.line ++ ": " ++ pyStrip (out ++ "\n" ++ err)) RED],
          summary := [false], exn := none } := by
  simp only [visit_literal_block, hclass, if_true, hreg, hmat, hrun]
  by_cases h0 : rc = 0 <;> simp [h0]

/-- Witness for C6: a python block under an environment whose checker
exits 0 yields the Passed outcome. -/
theorem recognized_block_passed_iff_exit_zero_witness :
    visit_literal_block envOk false "f.rst" pyNode =
      { stderr_lines := ["print(1)", "Okay"], summary := [true], exn := none } := by
  have h := recognized_block_passed_iff_exit_zero envOk false "f.rst" pyNode ".py"
    ["python", "-m", "compileall", "-q"] "/tmp/snippet" 0 "" "" (by decide) rfl rfl rfl
  simpa [inform, envOk, pyNode] using h

/-- C3 counterexample: with a recognized language but a checker binary
that cannot be launched, no outcome at all is recorded for the block
(`summary = []`, not a Failed entry) and the exception unwinds out of
the node's processing (`exn ≠ none`), so the remaining blocks are not
visited. -/
theorem launch_failure_not_recorded_ce :
    (walkDocument envLaunchFail false "f.rst" [pyNode, rubyNode]).summary = [] ∧
    (walkDocument envLaunchFail false "f.rst" [pyNode, rubyNode]).exn ≠ none := by
  constructor
  · rfl
  · decide

/-- C3 amended: when the snippet for a recognized-language block cannot
be materialized to a temporary file, or the checker process cannot be
launched, the IOError/OSError is not caught: the block records no
outcome, the exception unwinds out of the node's processing, and the
remaining nodes are not visited — the walk stops there carrying the
exception, having emitted only that node's own stderr output. -/
theorem launch_or_materialize_failure_unwinds (env : Env) (sw : Bool) (fn : String)
    (node : Node) (rest : List Node) (extension : String) (arguments : List String)
    (e : String)
    (hclass : node_has_class node ["code-block"] = true)
    (hreg : languageRegistry sw node.language = some (extension, arguments))
    (hfail : env.materialize extension node.rawsource = Except.error e ∨
      ∃ tmp, env.materialize extension node.rawsource = Except.ok tmp ∧
        env.runProcess (arguments ++ [tmp]) = Except.error e) :
    (visit_literal_block env sw fn node).summary = [] ∧
    (visit_literal_block env sw fn node).exn = some e ∧
    walkDocument env sw fn (node :: rest) =
      { stderr_lines := (visit_literal_block env sw fn node).stderr_lines,
        summary := [], exn := some e } := by
  have hv : (visit_literal_block env sw fn node).summary = [] ∧
      (visit_literal_block env sw fn node).exn = some e := by
    rcases hfail with hmat | ⟨tmp, hmat, hrun⟩
    · simp [visit_literal_block, hclass, hreg, hmat]
    · simp [visit_literal_block, hclass, hreg, hmat, hrun]
  refine ⟨hv.1, hv.2, ?_⟩
  simp only [walkDocument, hv.2]
  simp [hv.1]

/-- Witness for the amended C3 at concrete two-block documents: one
where the first block's checker cannot be launched, one where its
snippet cannot be materialized; in both, the ruby block is never
reached. -/
theorem launch_or_materialize_failure_unwinds_witness :
    walkDocument envLaunchFail false "f.rst" [pyNode, rubyNode] =
      { stderr_lines := ["print(1)", "Okay"], summary := [],
        exn := some "OSError: No such file or directory" } ∧
    walkDocument envMatFail false "f.rst" [pyNode, rubyNode] =
      { stderr_lines := [], summary := [],
        exn := some "IOError: No space left on device" } := by
  constructor
  · have h := launch_or_materialize_failure_unwinds envLaunchFail false "f.rst" pyNode
      [rubyNode] ".py" ["python", "-m", "compileall", "-q"]
      "OSError: No such file or directory" (by decide) rfl
      (Or.inr ⟨"/tmp/snippet", rfl, rfl⟩)
    rw [h.2.2]
    rfl
  · have h := launch_or_materialize_failure_unwinds envMatFail false "f.rst" pyNode
      [rubyNode] ".py" ["python", "-m", "compileall", "-q"]
      "IOError: No space left on device" (by decide) rfl (Or.inl rfl)
    rw [h.2.2]
    rfl

/-- C4 (code bug): the green `Okay` marker is printed before the checker
even runs, so a block whose checker exits nonzero still gets the `Okay`
line on stderr, followed by the red diagnostic — the marker is not
reserved for passed blocks. -/
theorem okay_marker_on_failed_block :
    visit_literal_block envFailRun false "f.rst" pyNode =
      { stderr_lines := ["print(1)", "Okay", "f.rst:3: boom"],
        summary := [false], exn := none } := by
  decide

/-- C2 (code bug): when the parser rejects `bad.rst`, `check` returns
Python `False`; `main` then evaluates `summary += False`, which raises
`TypeError`, crashing the run before `good.rst` is processed and before
any failure summary line is printed. -/
theorem parse_failure_crashes_run :
    pyMain envParseError true false ["bad.rst", "good.rst"] =
      MainOut.crash "TypeError: bool object is not iterable" [] := by
  rfl

/-- Under an environment that never raises, a single visit raises no
exception and contributes one summary entry for a recognized language,
one for an unrecognized language only under strict-warnings, and none
otherwise. -/
theorem visit_literal_block_total (env : Env) (h : env.total) (sw : Bool) (fn : String)
    (node : Node) :
    (visit_literal_block env sw fn node).exn = none ∧
    (visit_literal_block env sw fn node).summary.length =
      (if node_has_class node ["code-block"] then
        (if (languageRegistry sw node.language).isSome then 1 else if sw then 1 else 0)
      else 0) := by
  by_cases hc : node_has_class node ["code-block"]
  · cases hreg : languageRegistry sw node.language with
    | none =>
      simp only [visit_literal_block, hc, if_true, hreg]
      cases sw <;> simp
    | some p =>
      obtain ⟨ext, args⟩ := p
      obtain ⟨hm, hr⟩ := h
      obtain ⟨tmp, htmp⟩ := hm ext node.rawsource
      obtain ⟨⟨rc, out, err⟩, hrun⟩ := hr (args ++ [tmp])
      simp only [visit_literal_block, hc, if_true, hreg, htmp, hrun]
      by_cases h0 : rc = 0 <;> simp [h0, hreg]
  · simp [visit_literal_block, hc]

/-- C1 counterexample: the claimed equality of outcome count and
code-block count fails (a) for an unknown-language block without
strict-warnings, where nothing is recorded, and (b) for a block whose
checker cannot be launched, where the visit raises instead of
recording. -/
theorem outcome_count_ce :
    (walkDocument envOk false "f.rst" [rubyNode]).summary.length ≠
      codeBlockCount [rubyNode] ∧
    (walkDocument envLaunchFail false "f.rst" [pyNode]).summary.length ≠
      codeBlockCount [pyNode] := by
  constructor <;> decide

/-- C1 amended: under an environment where every materialization and
checker launch succeeds, the traversal raises no exception and records
exactly one outcome per code-block node with a recognized language plus,
when strict-warnings is set, one per code-block node with an
unrecognized language; blocks with unrecognized languages record nothing
without strict-warnings. -/
theorem walk_outcome_count (env : Env) (h : env.total) (sw : Bool) (fn : String)
    (doc : List Node) :
    (walkDocument env sw fn doc).exn = none ∧
    (walkDocument env sw fn doc).summary.length =
      countRecognized sw doc + (if sw then countUnknown sw doc else 0) := by
  induction doc with
  | nil => simp [walkDocument, countRecognized, countUnknown]
  | cons node rest ih =>
    obtain ⟨hexn, hlen⟩ := visit_literal_block_total env h sw fn node
    obtain ⟨wexn, wlen⟩ := ih
    simp only [walkDocument, hexn]
    refine ⟨wexn, ?_⟩
    simp only [List.length_append, hlen, wlen, countRecognized, countUnknown,
      List.countP_cons]
    by_cases hc : node_has_class node ["code-block"] <;>
      by_cases hs : (languageRegistry sw node.language).isSome <;>
        cases sw <;> simp [hc, hs] <;> omega

/-- Witness for the amended C1: a two-block document (one python block,
one ruby block) under strict-warnings records two outcomes. -/
theorem walk_outcome_count_witness :
    (walkDocument envOk true "f.rst" [pyNode, rubyNode]).exn = none ∧
    (walkDocument envOk true "f.rst" [pyNode, rubyNode]).summary.length =
      countRecognized true [pyNode, rubyNode] +
        (if true then countUnknown true [pyNode, rubyNode] else 0) :=
  walk_outcome_count envOk
    ⟨fun _ _ => ⟨"/tmp/snippet", rfl⟩, fun _ => ⟨(0, "", ""), rfl⟩⟩
    true "f.rst" [pyNode, rubyNode]

/-- When every file's `check` returns a summary list (no parse failure,
no uncaught exception), the file loop of `main` appends all summaries,
prints the failure-count line and exits with `1` exactly when some entry
is falsy. -/
theorem mainLoop_all_ok (env : Env) (sr sw : Bool) (files : List String) :
    ∀ (errAcc : List String) (summary : List Bool),
    (∀ f ∈ files, ∃ l, (check env f sr sw).result = Except.ok (PyCheckReturn.pyList l)) →
    mainLoop env sr sw files errAcc summary =
      MainOut.exit
        (if failCount (summary ++ runSummary env sr sw files) = 0 then 0 else 1)
        (errAcc ++ runStderr env sr sw files ++
          [inform env.isatty
            (toString (failCount (summary ++ runSummary env sr sw files)) ++ " failure(s)")
            (if failCount (summary ++ runSummary env sr sw files) = 0 then GREEN else RED)]) := by
  induction files with
  | nil =>
    intro errAcc summary _
    simp [mainLoop, runSummary, runStderr]
  | cons f rest ih =>
    intro errAcc summary h
    obtain ⟨l, hl⟩ := h f (by simp)
    have hrest : ∀ g ∈ rest, ∃ l2,
        (check env g sr sw).result = Except.ok (PyCheckReturn.pyList l2) :=
      fun g hg => h g (by simp [hg])
    have hfs : fileSummary env sr sw f = l := by simp [fileSummary, hl]
    simp only [mainLoop, hl]
    rw [ih (errAcc ++ (check env f sr sw).stderr_lines) (summary ++ l) hrest]
    simp [runSummary, runStderr, fileStderr, hfs, List.append_assoc]

/-- C5 counterexample: a run whose single input file fails to parse
records zero non-Passed outcomes (its failure count is 0), yet the
process does not exit with status 0 and no `N failure(s)` line is
printed — the run crashes on `summary += False` instead, so the claimed
iff does not hold for every run. -/
theorem run_exit_iff_ce :
    failCount (runSummary envParseError true false ["bad.rst"]) = 0 ∧
    pyMain envParseError true false ["bad.rst"] =
      MainOut.crash "TypeError: bool object is not iterable" [] :=
  ⟨rfl, rfl⟩

/-- C5 amended: for a run in which every file's `check` returns its
summary list (no fatal parse error and no uncaught exception), the exit
status is `1` exactly when the recorded summary contains a falsy entry
and `0` otherwise, and the last stderr line reports that exact count as
`N failure(s)` (green on zero, red otherwise). -/
theorem run_exit_status_and_summary_line (env : Env) (sr sw : Bool) (files : List String)
    (h : ∀ f ∈ files, ∃ l, (check env f sr sw).result = Except.ok (PyCheckReturn.pyList l)) :
    pyMain env sr sw files =
      MainOut.exit
        (if failCount (runSummary env sr sw files) = 0 then 0 else 1)
        (runStderr env sr sw files ++
          [inform env.isatty
            (toString (failCount (runSummary env sr sw files)) ++ " failure(s)")
            (if failCount (runSummary env sr sw files) = 0 then GREEN else RED)]) := by
  have hm := mainLoop_all_ok env sr sw files [] [] h
  simpa [pyMain] using hm

/-- Witness for C5: a single file that parses to the empty document
exits 0 and prints `0 failure(s)`. -/
theorem run_exit_status_witness :
    pyMain envOk false false ["a.rst"] = MainOut.exit 0 ["0 failure(s)"] := by
  rw [run_exit_status_and_summary_line envOk false false ["a.rst"] (fun _ _ => ⟨[], rfl⟩)]
  rfl

/-- C9: `check` and the whole run are deterministic — identical document
content, flags and external-world behavior (the same `Env`) give
identical outcome sequences, stderr transcripts and exit status. -/
theorem check_deterministic (env env2 : Env) (f f2 : String) (sr sr2 sw sw2 : Bool)
    (henv : env = env2) (hf : f = f2) (hsr : sr = sr2) (hsw : sw = sw2) :
    check env f sr sw = check env2 f2 sr2 sw2 ∧
    pyMain env sr sw [f] = pyMain env2 sr2 sw2 [f2] := by
  subst henv
  subst hf
  subst hsr
  subst hsw
  exact ⟨rfl, rfl⟩

/-- Witness for C9 at a concrete environment, file and flags. -/
theorem check_deterministic_witness :
    check envOk "a.rst" false false = check envOk "a.rst" false false ∧
    pyMain envOk false false ["a.rst"] = pyMain envOk false false ["a.rst"] :=
  check_deterministic envOk envOk "a.rst" "a.rst" false false false false rfl rfl rfl rfl
